import Mathlib

/-!
Verification of the microphone mute-state resolution and multi-endpoint
toggle logic of PyMicMute (`src/app.py`), as a shallow embedding.

The Windows Core Audio environment is modelled explicitly: every COM call
that the program wraps in a `try`/`except` is represented by a boolean
success flag on the device it touches, so that the program's error-handling
paths are part of the embedded functions.
-/

namespace PyMicMute

/-- One audio device as seen through the Core Audio API.  The boolean
`…Ok` fields say whether the corresponding COM call on this device
succeeds (`false` = the call raises, landing the program in the matching
`except` branch of `app.py`):
* `flowQueryOk` — `AudioUtilities.GetEndpointDataFlow(d.id)`,
* `getDeviceOk` — `enumerator.GetDevice(d.id)`,
* `stateQueryOk` — `imm_dev.GetState()`,
* `activateOk` — `device.Activate(IAudioEndpointVolume…)`,
* `readOk` — `vol.GetMute()`,
* `writeOk` — `vol.SetMute(…)`.
`flowIsCapture` is the flow-direction answer (`eCapture`), `stateActive`
whether `GetState` returns `DEVICE_STATE_ACTIVE`, and `mute` the current
mute flag of the device. -/
structure Endpoint where
  idStr : String
  name : String
  flowQueryOk : Bool
  flowIsCapture : Bool
  getDeviceOk : Bool
  stateQueryOk : Bool
  stateActive : Bool
  activateOk : Bool
  readOk : Bool
  writeOk : Bool
  mute : Bool
deriving DecidableEq, Repr

/-- The audio environment at one instant: the device list returned by
`AudioUtilities.GetAllDevices()`, whether the surrounding enumeration
`try` block succeeds at all (`enumOk`), the device returned by
`get_default_input_device()` (`none` = that call raises), and whether the
toast-notification subsystem works (`winotify` imported and
`toast.show()` succeeds). -/
structure World where
  allDevs : List Endpoint
  enumOk : Bool
  defaultDev : Option Endpoint
  notifOk : Bool
deriving DecidableEq, Repr

/-- The filter applied by the enumeration loop of `list_input_devices`
(`app.py` lines 121-138): keep a device iff its flow query succeeds and
answers capture, `GetDevice` succeeds, and the state query either fails
(fail-open: `except: pass`) or reports `DEVICE_STATE_ACTIVE`. -/
def capturedPred (d : Endpoint) : Bool :=
  d.flowQueryOk && d.flowIsCapture && d.getDeviceOk && (!d.stateQueryOk || d.stateActive)

/-- The devices collected by the enumeration loop of `list_input_devices`
before the fallback; an exception around the whole loop (`enumOk = false`)
leaves the list empty. -/
def enumeratedDevices (w : World) : List Endpoint :=
  if w.enumOk then w.allDevs.filter capturedPred else []

/-- One `(IMMDevice, friendly_name, device_id)` tuple of
`list_input_devices`. -/
structure DevEntry where
  dev : Endpoint
  entryName : String
  devIdStr : Option String
deriving DecidableEq, Repr

/-- `list_input_devices` (`app.py` lines 114-148): the enumeration loop,
then, if it produced nothing, the fallback
`(get_default_input_device(), 'Default microphone', None)` when the
default-device call succeeds. -/
def list_input_devices (w : World) : List DevEntry :=
  let devs := (enumeratedDevices w).map (fun d => DevEntry.mk d d.name (some d.idStr))
  if devs.isEmpty then
    match w.defaultDev with
    | some d => [DevEntry.mk d "Default microphone" none]
    | none => []
  else devs

/-- `iter_capture_volumes` (`app.py` lines 185-190): activate every listed
device, silently skipping those whose `Activate` call raises. -/
def iter_capture_volumes (w : World) : List Endpoint :=
  (list_input_devices w).filterMap (fun e => if e.dev.activateOk then some e.dev else none)

/-- `is_muted` (`app.py` lines 192-202): collect `GetMute()` (1 for muted,
0 for not) over the capture volumes, skipping read failures; `None` when
nothing was readable, else `1` iff every readable flag is `1`, else `0`. -/
def is_muted (w : World) : Option Nat :=
  let states := (iter_capture_volumes w).filterMap
      (fun v => if v.readOk then some (if v.mute then 1 else 0) else none)
  if states.isEmpty then none
  else some (if states.all (fun s => s == 1) then 1 else 0)

/-- The spec's tri-state aggregate mute value. -/
inductive AggregateMuteState where
  | Muted
  | Unmuted
  | Unknown
deriving DecidableEq, Repr

/-- The tri-state reading of `is_muted`'s Python result
(`None`/`1`/`0` ↦ Unknown/Muted/Unmuted). -/
def aggState (w : World) : AggregateMuteState :=
  match is_muted w with
  | none => .Unknown
  | some n => if n == 1 then .Muted else .Unmuted

/-- The endpoints whose mute flag `is_muted` can actually read: listed,
activation succeeded, and `GetMute` succeeds. -/
def readableEndpoints (w : World) : List Endpoint :=
  (iter_capture_volumes w).filter (fun v => v.readOk)

/-- The in-memory configuration record (`DEFAULT_CONFIG` keys,
`app.py` lines 86-92). -/
structure Config where
  hotkey : String
  device_id : Option String
  autostart : Bool
  appearance : String
  last_muted : Option Bool
deriving DecidableEq, Repr

/-- `DEFAULT_CONFIG` (`app.py` lines 86-92). -/
def DEFAULT_CONFIG : Config :=
  { hotkey := "ctrl+alt+m"
    device_id := none
    autostart := false
    appearance := "dark"
    last_muted := none }

/-- A parsed JSON config object viewed as a partial overlay of the known
keys: `none` = the key is absent from the file (the `{**DEFAULT_CONFIG,
**data}` merge then keeps the default). -/
structure PartialConfig where
  hotkey : Option String
  device_id : Option (Option String)
  autostart : Option Bool
  appearance : Option String
  last_muted : Option (Option Bool)
deriving DecidableEq, Repr

/-- The dict merge `{**DEFAULT_CONFIG, **data}` restricted to the known
keys: each key present in `data` overrides the default. -/
def mergeConfig (base : Config) (d : PartialConfig) : Config :=
  { hotkey := d.hotkey.getD base.hotkey
    device_id := d.device_id.getD base.device_id
    autostart := d.autostart.getD base.autostart
    appearance := d.appearance.getD base.appearance
    last_muted := d.last_muted.getD base.last_muted }

/-- `load_config` (`app.py` lines 94-102).  The disk is abstracted as what
the program can observe of it: `none` = `CONFIG_FILE` does not exist;
`some none` = the file exists but opening/parsing it raises (malformed);
`some (some data)` = `json.load` succeeds with object `data`.  Both
failure paths fall through to `DEFAULT_CONFIG.copy()`; the function is
total, so no exception propagates. -/
def load_config (disk : Option (Option PartialConfig)) : Config :=
  match disk with
  | some (some data) => mergeConfig DEFAULT_CONFIG data
  | some none => DEFAULT_CONFIG
  | none => DEFAULT_CONFIG

/-- The mutable program state touched by `set_muted`: the audio world, the
in-memory `CONFIG` dict, the log of `save_config` calls (each records the
dict written), and the log of toast notifications actually shown. -/
structure AppState where
  world : World
  config : Config
  saves : List Config
  toasts : List String
deriving DecidableEq, Repr

/-- Effect of the `vol.SetMute(1 if m else 0, None)` attempt on one
volume: the flag is set when the call succeeds, the device is left
untouched when it raises. -/
def writeEndpoint (m : Bool) (d : Endpoint) : Endpoint :=
  if d.writeOk then { d with mute := m } else d

/-- The world after `set_muted`'s write loop: every device that
`iter_capture_volumes` yields gets a `SetMute` attempt.  When the
enumeration produced devices they live in `allDevs`; otherwise the only
possible target is the fallback default device. -/
def writeWorld (m : Bool) (w : World) : World :=
  if (enumeratedDevices w).isEmpty then
    { w with defaultDev := w.defaultDev.map (fun d => if d.activateOk then writeEndpoint m d else d) }
  else
    { w with allDevs := w.allDevs.map (fun d => if capturedPred d && d.activateOk then writeEndpoint m d else d) }

/-- `set_muted` (`app.py` lines 204-228): attempt `SetMute` on every
capture volume, swallowing per-device failures; `changed` becomes true on
the first success.  If anything changed, set `CONFIG["last_muted"]`,
call `save_config`, and show one toast ("Muted"/"Unmuted") when the
notification subsystem works.  The second component is the Python return
value: the function has no `return` statement, so it is `None`, never an
integer. -/
def set_muted (m : Bool) (s : AppState) : AppState × Option Nat :=
  let vols := iter_capture_volumes s.world
  let changed := vols.any (fun v => v.writeOk)
  let w := writeWorld m s.world
  if changed then
    let cfg := { s.config with last_muted := some m }
    ({ world := w
       config := cfg
       saves := s.saves ++ [cfg]
       toasts := s.toasts ++ (if s.world.notifOk then [if m then "Muted" else "Unmuted"] else []) },
     none)
  else
    ({ s with world := w }, none)

/-- Python's `not` applied to `is_muted()`'s result: `not None = True`,
`not 1 = False`, `not 0 = True`. -/
def pyNot : Option Nat → Bool
  | none => true
  | some n => n == 0

/-- `toggle_mic` (`app.py` lines 230-232): guarded by the truthiness of
the module-level `AUDIO_VOL` handle resolved once at startup; when that
handle is present it calls `set_muted(not is_muted())`. -/
def toggle_mic (audioVol : Bool) (s : AppState) : AppState :=
  if audioVol then (set_muted (pyNot (is_muted s.world)) s).1 else s

/-- Modelled from the spec: the return value the contract
`setMuteState(target: boolean) -> appliedCount: int` promises — the
number of endpoints whose `SetMute` attempt succeeds in one `set_muted`
call.  Compared against the embedded `set_muted`'s actual return value. -/
def appliedCount (s : AppState) : Nat :=
  ((iter_capture_volumes s.world).filter (fun v => v.writeOk)).length

/-- The observable startup actions of `main` (`app.py` lines 526-560). -/
inductive Event where
  | singleInstanceCheck
  | notifyAlreadyRunning
  | registerHotkey (hk : String)
  | startTrayThread
  | setMutedCall (m : Bool)
  | updateTrayIcon
  | waitShutdown
deriving DecidableEq, Repr

/-- `main` (`app.py` lines 526-560) as its sequence of startup actions in
program order: single-instance check; if another instance already runs,
notify and return; otherwise register the hotkey, start the tray-icon
thread, then — only when `CONFIG["last_muted"]` is not `None` — call
`set_muted(last)` and refresh the tray icon, and finally block on the
shutdown event. -/
def main_trace (singleOk : Bool) (cfg : Config) : List Event :=
  if singleOk then
    [Event.singleInstanceCheck, Event.registerHotkey cfg.hotkey, Event.startTrayThread] ++
      (match cfg.last_muted with
       | some b => [Event.setMutedCall b, Event.updateTrayIcon]
       | none => []) ++
      [Event.waitShutdown]
  else
    [Event.singleInstanceCheck, Event.notifyAlreadyRunning]

/-- Recognizer for the `set_muted` calls in a startup trace. -/
def eventIsSetMuted : Event → Bool
  | .setMutedCall _ => true
  | _ => false

/-- Events that show user interface: starting the tray-icon thread
displays the tray icon, and `update_tray_icon` refreshes it.  The
settings window is only opened on demand, never from `main`. -/
def eventShowsUI : Event → Bool
  | .startTrayThread => true
  | .updateTrayIcon => true
  | _ => false

/-- Whether some UI-showing event precedes the first `set_muted` call of a
startup trace. -/
def uiBeforeRestore (tr : List Event) : Bool :=
  (tr.takeWhile (fun e => !eventIsSetMuted e)).any eventShowsUI

/-! Concrete devices, worlds and states used as witnesses and
counterexamples.  Field order of `Endpoint`: idStr, name, flowQueryOk,
flowIsCapture, getDeviceOk, stateQueryOk, stateActive, activateOk,
readOk, writeOk, mute. -/

/-- A fully functional active capture device with the given mute flag. -/
def epGood (i : String) (b : Bool) : Endpoint :=
  ⟨i, "Mic", true, true, true, true, true, true, true, true, b⟩

/-- An active capture device whose `GetMute` raises but whose `SetMute`
works; currently unmuted. -/
def epNoRead : Endpoint :=
  ⟨"idNR", "Mic NR", true, true, true, true, true, true, false, true, false⟩

/-- An active capture device whose `SetMute` raises but whose `GetMute`
works; currently unmuted. -/
def epNoWrite : Endpoint :=
  ⟨"idNW", "Mic NW", true, true, true, true, true, true, true, false, false⟩

/-- A capture device whose `GetState` query raises (fail-open case). -/
def epNoState : Endpoint :=
  ⟨"idNS", "Mic NS", true, true, true, false, false, true, true, true, false⟩

/-- A device whose flow-direction query raises (skipped case). -/
def epNoFlow : Endpoint :=
  ⟨"idNF", "Mic NF", false, true, true, true, true, true, true, true, false⟩

/-- A world with the given device list, working enumeration, no default
device, and a working notifier. -/
def mkWorld (l : List Endpoint) : World := ⟨l, true, none, true⟩

/-- An app state over a world: default config, empty save and toast logs. -/
def mkState (w : World) : AppState := ⟨w, DEFAULT_CONFIG, [], []⟩

/-! ### General list helpers -/

theorem filterMap_if_eq {α β : Type} (p : α → Bool) (f : α → β) (l : List α) :
    l.filterMap (fun v => if p v then some (f v) else none) = (l.filter p).map f := by
  induction l with
  | nil => rfl
  | cons a t ih =>
    cases h : p a <;> simp [List.filterMap_cons, List.filter_cons, h, ih]

theorem filter_map_comm {α : Type} (p : α → Bool) (f : α → α)
    (h : ∀ a, p (f a) = p a) (l : List α) :
    (l.map f).filter p = (l.filter p).map f := by
  induction l with
  | nil => rfl
  | cons a t ih =>
    cases ha : p a <;> simp [List.filter_cons, h, ha, ih]

/-! ### Effect of the write loop on the re-enumerated endpoint set -/

theorem writeEndpoint_activateOk (m : Bool) (d : Endpoint) :
    (writeEndpoint m d).activateOk = d.activateOk := by
  unfold writeEndpoint; split <;> rfl

theorem writeEndpoint_readOk (m : Bool) (d : Endpoint) :
    (writeEndpoint m d).readOk = d.readOk := by
  unfold writeEndpoint; split <;> rfl

theorem writeEndpoint_writeOk (m : Bool) (d : Endpoint) :
    (writeEndpoint m d).writeOk = d.writeOk := by
  unfold writeEndpoint; split <;> rfl

theorem writeEndpoint_mute (m : Bool) (d : Endpoint) :
    (writeEndpoint m d).mute = if d.writeOk then m else d.mute := by
  unfold writeEndpoint; split <;> simp [*]

theorem capturedPred_writeEndpoint (m : Bool) (d : Endpoint) :
    capturedPred (writeEndpoint m d) = capturedPred d := by
  unfold writeEndpoint; split <;> rfl

/-- The devices of `list_input_devices`, stripped of names and id strings. -/
def devsOf (w : World) : List Endpoint := (list_input_devices w).map DevEntry.dev

theorem iter_eq_devsOf (w : World) :
    iter_capture_volumes w
      = (devsOf w).filterMap (fun d => if d.activateOk then some d else none) := by
  unfold iter_capture_volumes devsOf
  rw [List.filterMap_map]
  rfl

theorem devsOf_eq (w : World) :
    devsOf w = if (enumeratedDevices w).isEmpty then
        (match w.defaultDev with
         | some d => [d]
         | none => [])
      else enumeratedDevices w := by
  unfold devsOf list_input_devices
  cases h : enumeratedDevices w with
  | nil => cases w.defaultDev <;> simp
  | cons a t =>
    have hid : (DevEntry.dev ∘ fun d => DevEntry.mk d d.name (some d.idStr)) = fun d => d := rfl
    simp [h, hid]

theorem devsOf_writeWorld (m : Bool) (w : World) :
    devsOf (writeWorld m w)
      = (devsOf w).map (fun d => if d.activateOk then writeEndpoint m d else d) := by
  cases h : enumeratedDevices w with
  | nil =>
    have hw : writeWorld m w
        = { w with defaultDev := w.defaultDev.map (fun d => if d.activateOk then writeEndpoint m d else d) } := by
      unfold writeWorld; rw [h]; rfl
    have he : enumeratedDevices (writeWorld m w) = [] := by
      rw [hw]; exact h
    rw [devsOf_eq, devsOf_eq, h, he]
    cases hd : w.defaultDev <;> simp [hw, hd]
  | cons a t =>
    have hw : writeWorld m w
        = { w with allDevs := w.allDevs.map (fun d => if capturedPred d && d.activateOk then writeEndpoint m d else d) } := by
      unfold writeWorld; rw [h]; rfl
    have henum : w.enumOk = true := by
      by_contra hko
      have : enumeratedDevices w = [] := by
        unfold enumeratedDevices
        simp [Bool.eq_false_iff.mpr hko]
      rw [h] at this; exact List.cons_ne_nil a t this
    have hpres : ∀ d : Endpoint,
        capturedPred (if capturedPred d && d.activateOk then writeEndpoint m d else d) = capturedPred d := by
      intro d
      by_cases hc : (capturedPred d && d.activateOk) = true
      · simp [hc, capturedPred_writeEndpoint]
      · simp [hc]
    have he : enumeratedDevices (writeWorld m w)
        = (enumeratedDevices w).map (fun d => if capturedPred d && d.activateOk then writeEndpoint m d else d) := by
      rw [hw]
      unfold enumeratedDevices
      simp only [henum, if_true]
      exact filter_map_comm _ _ hpres _
    have hmem : ∀ d ∈ enumeratedDevices w,
        (if capturedPred d && d.activateOk then writeEndpoint m d else d)
          = (if d.activateOk then writeEndpoint m d else d) := by
      intro d hd
      have hc : capturedPred d = true := by
        have := hd
        unfold enumeratedDevices at this
        rw [henum, if_pos rfl] at this
        exact (List.mem_filter.mp this).2
      rw [hc]
      simp
    have hne : (enumeratedDevices w).isEmpty = false := by rw [h]; rfl
    have hne2 : ((enumeratedDevices w).map
        (fun d => if capturedPred d && d.activateOk then writeEndpoint m d else d)).isEmpty = false := by
      rw [h]; rfl
    rw [devsOf_eq, devsOf_eq, he]
    simp only [hne, hne2, Bool.false_eq_true, if_false]
    exact List.map_congr_left hmem

theorem iter_writeWorld (m : Bool) (w : World) :
    iter_capture_volumes (writeWorld m w)
      = (iter_capture_volumes w).map (writeEndpoint m) := by
  rw [iter_eq_devsOf, iter_eq_devsOf, devsOf_writeWorld]
  generalize devsOf w = l
  induction l with
  | nil => rfl
  | cons a t ih =>
    cases ha : a.activateOk <;>
      simp [List.filterMap_cons, ha, ih, writeEndpoint_activateOk]

theorem set_muted_world (m : Bool) (s : AppState) :
    (set_muted m s).1.world = writeWorld m s.world := by
  simp only [set_muted]
  split <;> rfl

theorem set_muted_ret_none (m : Bool) (s : AppState) :
    (set_muted m s).2 = none := by
  simp only [set_muted]
  split <;> rfl

/-- The integer `vol.GetMute()` reports for a device. -/
def muteVal (v : Endpoint) : Nat := if v.mute then 1 else 0

theorem states_eq (w : World) :
    (iter_capture_volumes w).filterMap
        (fun v => if v.readOk then some (if v.mute then 1 else 0) else none)
      = (readableEndpoints w).map muteVal := by
  unfold readableEndpoints
  exact filterMap_if_eq _ muteVal _

theorem all_map_muteVal (l : List Endpoint) :
    ((l.map muteVal).all fun s => s == 1) = l.all (fun v => v.mute) := by
  induction l with
  | nil => rfl
  | cons a t ih => cases h : a.mute <;> simp [muteVal, h, ih]

theorem is_muted_eq (w : World) :
    is_muted w = if (readableEndpoints w).isEmpty then none
      else some (if (readableEndpoints w).all (fun v => v.mute) then 1 else 0) := by
  simp only [is_muted]
  rw [states_eq]
  cases h : readableEndpoints w with
  | nil => rfl
  | cons a t =>
    have hm : muteVal a = 1 ↔ a.mute = true := by cases hb : a.mute <;> simp [muteVal, hb]
    simp [all_map_muteVal, hm]

/-- **C1.** `is_muted` returns Unknown (`None`) iff no listed endpoint's
mute flag is readable; Muted (`1`) iff the readable set is non-empty and
every readable flag is true; Unmuted (`0`) iff the readable set is
non-empty and some readable flag is false. -/
theorem is_muted_classification (w : World) :
    (aggState w = AggregateMuteState.Unknown ↔ readableEndpoints w = []) ∧
    (aggState w = AggregateMuteState.Muted ↔
      readableEndpoints w ≠ [] ∧ ∀ v ∈ readableEndpoints w, v.mute = true) ∧
    (aggState w = AggregateMuteState.Unmuted ↔
      readableEndpoints w ≠ [] ∧ ∃ v ∈ readableEndpoints w, v.mute = false) := by
  have hmain := is_muted_eq w
  by_cases hR : readableEndpoints w = []
  · have hagg : aggState w = AggregateMuteState.Unknown := by
      unfold aggState
      rw [hmain, hR]
      rfl
    refine ⟨⟨fun _ => hR, fun _ => hagg⟩, ⟨?_, ?_⟩, ⟨?_, ?_⟩⟩
    · intro hm
      rw [hagg] at hm
      exact absurd hm (by decide)
    · rintro ⟨hne, _⟩
      exact absurd hR hne
    · intro hu
      rw [hagg] at hu
      exact absurd hu (by decide)
    · rintro ⟨hne, _⟩
      exact absurd hR hne
  · have hE : (readableEndpoints w).isEmpty = false := by
      cases h : readableEndpoints w with
      | nil => exact absurd h hR
      | cons a t => rfl
    by_cases hall : (readableEndpoints w).all (fun v => v.mute) = true
    · have hforall : ∀ v ∈ readableEndpoints w, v.mute = true := by
        intro v hv
        exact List.all_eq_true.mp hall v hv
      have hagg : aggState w = AggregateMuteState.Muted := by
        unfold aggState
        rw [hmain]
        simp [hE, hall]
      have hnoex : ¬ ∃ v ∈ readableEndpoints w, v.mute = false := by
        rintro ⟨v, hv, hfalse⟩
        rw [hforall v hv] at hfalse
        exact absurd hfalse (by decide)
      refine ⟨⟨?_, ?_⟩, ⟨fun _ => ⟨hR, hforall⟩, fun _ => hagg⟩, ⟨?_, ?_⟩⟩
      · intro hu
        rw [hagg] at hu
        exact absurd hu (by decide)
      · intro hre
        exact absurd hre hR
      · intro hu
        rw [hagg] at hu
        exact absurd hu (by decide)
      · rintro ⟨_, hex⟩
        exact absurd hex hnoex
    · have hagg : aggState w = AggregateMuteState.Unmuted := by
        unfold aggState
        rw [hmain]
        simp [hE, hall]
      have hex : ∃ v ∈ readableEndpoints w, v.mute = false := by
        by_contra hno
        apply hall
        apply List.all_eq_true.mpr
        intro v hv
        cases hbv : v.mute with
        | true => rfl
        | false => exact absurd ⟨v, hv, hbv⟩ hno
      refine ⟨⟨?_, ?_⟩, ⟨?_, ?_⟩, ⟨fun _ => ⟨hR, hex⟩, fun _ => hagg⟩⟩
      · intro hu
        rw [hagg] at hu
        exact absurd hu (by decide)
      · intro hre
        exact absurd hre hR
      · intro hm
        rw [hagg] at hm
        exact absurd hm (by decide)
      · rintro ⟨_, hforall2⟩
        rcases hex with ⟨v, hv, hfalse⟩
        rw [hforall2 v hv] at hfalse
        exact absurd hfalse (by decide)

theorem readable_writeWorld (m : Bool) (w : World) :
    readableEndpoints (writeWorld m w) = (readableEndpoints w).map (writeEndpoint m) := by
  unfold readableEndpoints
  rw [iter_writeWorld]
  exact filter_map_comm _ _ (writeEndpoint_readOk m) _

/-- **C6 (amended).** `set_muted m` immediately followed by `is_muted`
reports the state corresponding to `m`, provided at least one endpoint is
listed and — beyond what the claim states — every listed endpoint's mute
flag is both readable and writable. -/
theorem set_muted_roundtrip (m : Bool) (s : AppState)
    (h1 : iter_capture_volumes s.world ≠ [])
    (h2 : ∀ v ∈ iter_capture_volumes s.world, v.readOk = true ∧ v.writeOk = true) :
    aggState (set_muted m s).1.world
      = (if m then AggregateMuteState.Muted else AggregateMuteState.Unmuted) := by
  rw [set_muted_world]
  have hfilter : readableEndpoints s.world = iter_capture_volumes s.world := by
    unfold readableEndpoints
    apply List.filter_eq_self.mpr
    intro a ha
    exact (h2 a ha).1
  have hR : readableEndpoints (writeWorld m s.world)
      = (iter_capture_volumes s.world).map (writeEndpoint m) := by
    rw [readable_writeWorld, hfilter]
  have hro : (readableEndpoints (writeWorld m s.world)).isEmpty = false := by
    rw [hR]
    cases hl : iter_capture_volumes s.world with
    | nil => exact absurd hl h1
    | cons a t => rfl
  have hall : (readableEndpoints (writeWorld m s.world)).all (fun v => v.mute) = m := by
    rw [hR]
    cases m with
    | false =>
      rcases List.exists_cons_of_ne_nil h1 with ⟨a, t, hat⟩
      have hw : a.writeOk = true := (h2 a (by rw [hat]; exact List.mem_cons_self a t)).2
      rw [hat]
      simp [writeEndpoint_mute, hw]
    | true =>
      apply List.all_eq_true.mpr
      intro x hx
      rcases List.mem_map.mp hx with ⟨v, hv, rfl⟩
      have hw : v.writeOk = true := (h2 v hv).2
      simp [writeEndpoint_mute, hw]
  unfold aggState
  rw [is_muted_eq, hro, hall]
  cases m <;> rfl

/-- A state holding one endpoint whose `SetMute` raises (readable,
unwritable, unmuted). -/
def sNW : AppState := mkState (mkWorld [epNoWrite])

/-- **C6 counterexample.** With one endpoint present whose `SetMute`
raises (a per-endpoint failure the claim's hypotheses allow),
`set_muted(true)` followed by `is_muted()` yields Unmuted, not Muted. -/
theorem roundtrip_cex :
    iter_capture_volumes sNW.world ≠ [] ∧
    aggState (set_muted true sNW).1.world = AggregateMuteState.Unmuted := by
  decide

/-- A state holding one fully functional unmuted endpoint. -/
def sGood : AppState := mkState (mkWorld [epGood "idA" false])

/-- Witness for `set_muted_roundtrip` at a concrete one-endpoint state. -/
theorem set_muted_roundtrip_witness :
    aggState (set_muted true sGood).1.world = AggregateMuteState.Muted :=
  set_muted_roundtrip true sGood (by decide) (by decide)

/-- **C2 (amended).** `toggle_mic` is a no-op exactly when the module's
startup `AUDIO_VOL` handle is `None`.  With the handle present it calls
`set_muted(not is_muted())`: Python's `not` negates the known states, but
maps `None` (Unknown) to `True`, so an Unknown state still triggers
`set_muted(True)` — which writes and persists whenever some endpoint
accepts the write. -/
theorem toggle_mic_behavior (s : AppState) :
    (toggle_mic false s = s) ∧
    (is_muted s.world = some 1 → toggle_mic true s = (set_muted false s).1) ∧
    (is_muted s.world = some 0 → toggle_mic true s = (set_muted true s).1) ∧
    (is_muted s.world = none → toggle_mic true s = (set_muted true s).1) := by
  refine ⟨rfl, ?_, ?_, ?_⟩ <;> intro h <;> simp [toggle_mic, h, pyNot]

/-- A state holding one endpoint whose `GetMute` raises but whose
`SetMute` works (unreadable, writable, unmuted). -/
def sNR : AppState := mkState (mkWorld [epNoRead])

/-- **C2 counterexample.** A state where `is_muted()` is Unknown (`None`)
yet `toggle_mic` with a present `AUDIO_VOL` handle mutes an endpoint and
persists `last_muted = True`: the single endpoint's mute flag is
unreadable but writable. -/
theorem toggle_unknown_cex :
    is_muted sNR.world = none ∧
    (toggle_mic true sNR).saves ≠ [] ∧
    (toggle_mic true sNR).config.last_muted = some true ∧
    (toggle_mic true sNR).world.allDevs.any (fun d => d.mute) = true ∧
    sNR.world.allDevs.any (fun d => d.mute) = false := by
  decide

/-- Witness for `toggle_mic_behavior` at a concrete unmuted state. -/
theorem toggle_mic_behavior_witness :
    toggle_mic true sGood = (set_muted true sGood).1 :=
  (toggle_mic_behavior sGood).2.2.1 (by decide)

/-- **C9.** `toggle_mic` acts only on the truthiness of the module-level
`AUDIO_VOL` handle resolved once at startup: with the handle absent it
does nothing (for every state, including ones with live endpoints), and
with the handle present it proceeds on a fresh `is_muted`/`set_muted`
pass — even when that fresh enumeration finds nothing at all. -/
theorem toggle_guard_audio_vol (s : AppState) :
    (toggle_mic false s = s) ∧
    (toggle_mic true s = (set_muted (pyNot (is_muted s.world)) s).1) ∧
    (iter_capture_volumes s.world = [] → toggle_mic true s = (set_muted true s).1) := by
  refine ⟨rfl, rfl, ?_⟩
  intro h
  have hu : is_muted s.world = none := by
    rw [is_muted_eq]
    have hre : readableEndpoints s.world = [] := by
      unfold readableEndpoints
      rw [h]
      rfl
    rw [hre]
    rfl
  simp [toggle_mic, hu, pyNot]

/-- A state over a world with no devices at all. -/
def sEmptyW : AppState := mkState (mkWorld [])

/-- Witness for `toggle_guard_audio_vol`: with no endpoints but a present
handle, `toggle_mic` still invokes `set_muted(True)`. -/
theorem toggle_guard_audio_vol_witness :
    toggle_mic true sEmptyW = (set_muted true sEmptyW).1 :=
  (toggle_guard_audio_vol sEmptyW).2.2 (by decide)

/-- **C3 (amended).** `set_muted` attempts `SetMute` on every listed
endpoint — the loop never aborts; a failing endpoint is simply left
unchanged — but its Python return value is `None`: it does not return
the count of endpoints successfully updated (it only tracks a boolean
`changed` flag internally). -/
theorem set_muted_best_effort (m : Bool) (s : AppState) :
    (set_muted m s).2 = none ∧
    iter_capture_volumes (set_muted m s).1.world
      = (iter_capture_volumes s.world).map (writeEndpoint m) ∧
    (∀ v ∈ iter_capture_volumes s.world, v.writeOk = true → (writeEndpoint m v).mute = m) ∧
    (∀ v ∈ iter_capture_volumes s.world, v.writeOk = false → writeEndpoint m v = v) := by
  refine ⟨set_muted_ret_none m s, ?_, ?_, ?_⟩
  · rw [set_muted_world, iter_writeWorld]
  · intro v hv hw
    simp [writeEndpoint_mute, hw]
  · intro v hv hw
    simp [writeEndpoint, hw]

/-- A state holding two fully functional unmuted endpoints. -/
def sTwo : AppState := mkState (mkWorld [epGood "idA" false, epGood "idB" false])

/-- **C3 counterexample.** With two endpoints successfully updated the
spec's contract demands the return value `2`; the embedded `set_muted`
returns Python `None`. -/
theorem set_muted_count_cex :
    appliedCount sTwo = 2 ∧ (set_muted true sTwo).2 ≠ some (appliedCount sTwo) := by
  decide

/-- Witness for `set_muted_best_effort` at a concrete two-endpoint state. -/
theorem set_muted_best_effort_witness :
    (set_muted true sTwo).2 = none ∧ (writeEndpoint true (epGood "idA" false)).mute = true :=
  ⟨(set_muted_best_effort true sTwo).1,
   (set_muted_best_effort true sTwo).2.2.1 (epGood "idA" false) (by decide) (by decide)⟩

/-- **C4.** Provided the notification subsystem is functional
(`winotify` imported and `toast.show()` succeeding), `set_muted` updates
`last_muted`, writes the config once, and shows exactly one toast naming
the new state ("Muted"/"Unmuted" — one in total, not one per device) iff
at least one endpoint accepted the write; when none did, it neither
touches the config, nor saves, nor notifies. -/
theorem set_muted_persist_notify (m : Bool) (s : AppState)
    (hn : s.world.notifOk = true) :
    ((iter_capture_volumes s.world).any (fun v => v.writeOk) = true →
      (set_muted m s).1.config.last_muted = some m ∧
      (set_muted m s).1.saves = s.saves ++ [{ s.config with last_muted := some m }] ∧
      (set_muted m s).1.toasts = s.toasts ++ [if m then "Muted" else "Unmuted"]) ∧
    ((iter_capture_volumes s.world).any (fun v => v.writeOk) = false →
      (set_muted m s).1.config = s.config ∧
      (set_muted m s).1.saves = s.saves ∧
      (set_muted m s).1.toasts = s.toasts) := by
  constructor <;> intro h <;> simp [set_muted, h, hn]

/-- Witness for `set_muted_persist_notify`: muting two devices stores
`last_muted = True`, saves once, and shows a single "Muted" toast. -/
theorem set_muted_persist_notify_witness :
    (set_muted true sTwo).1.config.last_muted = some true ∧
    (set_muted true sTwo).1.saves = sTwo.saves ++ [{ sTwo.config with last_muted := some true }] ∧
    (set_muted true sTwo).1.toasts = sTwo.toasts ++ ["Muted"] :=
  (set_muted_persist_notify true sTwo (by decide)).1 (by decide)

/-- A config whose persisted `last_muted` is present (`True`). -/
def cfgLM : Config := { DEFAULT_CONFIG with last_muted := some true }

/-- **C5 counterexample.** With `last_muted` persisted, startup calls
`set_muted` exactly once — but a UI-showing action (starting the
tray-icon thread) precedes it in `main`'s program order, so the call
does not happen before any UI is shown. -/
theorem restore_before_ui_cex :
    ((main_trace true cfgLM).filter eventIsSetMuted).length = 1 ∧
    uiBeforeRestore (main_trace true cfgLM) = true := by
  decide

/-- **C5 (amended).** On process start (single-instance check passed)
with `last_muted` present, `main` calls `set_muted(lastMuted)` exactly
once, but only after the tray-icon thread — the tray UI — has been
started; the restoration is not ordered before the UI. -/
theorem main_trace_restore (cfg : Config) (b : Bool) (h : cfg.last_muted = some b) :
    main_trace true cfg =
      [Event.singleInstanceCheck, Event.registerHotkey cfg.hotkey, Event.startTrayThread,
       Event.setMutedCall b, Event.updateTrayIcon, Event.waitShutdown] ∧
    ((main_trace true cfg).filter eventIsSetMuted).length = 1 ∧
    uiBeforeRestore (main_trace true cfg) = true := by
  have htr : main_trace true cfg =
      [Event.singleInstanceCheck, Event.registerHotkey cfg.hotkey, Event.startTrayThread,
       Event.setMutedCall b, Event.updateTrayIcon, Event.waitShutdown] := by
    simp [main_trace, h]
  refine ⟨htr, ?_, ?_⟩ <;> rw [htr] <;> rfl

/-- Witness for `main_trace_restore` at a concrete config. -/
theorem main_trace_restore_witness :
    main_trace true cfgLM =
      [Event.singleInstanceCheck, Event.registerHotkey cfgLM.hotkey, Event.startTrayThread,
       Event.setMutedCall true, Event.updateTrayIcon, Event.waitShutdown] :=
  (main_trace_restore cfgLM true (by decide)).1

theorem list_input_devices_eq (w : World)
    (h : (enumeratedDevices w).isEmpty = false) :
    list_input_devices w
      = (enumeratedDevices w).map (fun d => DevEntry.mk d d.name (some d.idStr)) := by
  cases hE : enumeratedDevices w with
  | nil => rw [hE] at h; cases h
  | cons a t => simp [list_input_devices, hE]

/-- **C7.** In a run where the enumerator itself works, a capture device
whose device-state query raises is still kept by the enumeration loop
(fail-open) — and therefore appears in `list_input_devices`' result —
while a device whose flow-direction query raises is excluded. -/
theorem enumeration_failopen (w : World) (hw : w.enumOk = true) :
    (∀ d ∈ w.allDevs, d.flowQueryOk = true → d.flowIsCapture = true →
      d.getDeviceOk = true → d.stateQueryOk = false →
      d ∈ enumeratedDevices w ∧
      DevEntry.mk d d.name (some d.idStr) ∈ list_input_devices w) ∧
    (∀ d : Endpoint, d.flowQueryOk = false → d ∉ enumeratedDevices w) := by
  constructor
  · intro d hd h1 h2 h3 h4
    have hmem : d ∈ enumeratedDevices w := by
      unfold enumeratedDevices
      rw [hw, if_pos rfl]
      apply List.mem_filter.mpr
      refine ⟨hd, ?_⟩
      unfold capturedPred
      rw [h1, h2, h3, h4]
      rfl
    refine ⟨hmem, ?_⟩
    have hne : (enumeratedDevices w).isEmpty = false := by
      cases hE : enumeratedDevices w with
      | nil => rw [hE] at hmem; cases hmem
      | cons a t => rfl
    rw [list_input_devices_eq w hne]
    exact List.mem_map_of_mem _ hmem
  · intro d hf hmem
    unfold enumeratedDevices at hmem
    rw [hw, if_pos rfl] at hmem
    have hpred := (List.mem_filter.mp hmem).2
    unfold capturedPred at hpred
    rw [hf] at hpred
    simp at hpred

/-- A world containing one state-query-failing capture device and one
flow-query-failing device. -/
def w7 : World := ⟨[epNoState, epNoFlow], true, none, true⟩

/-- Witness for `enumeration_failopen`: the state-failing device is kept,
the flow-failing device is skipped. -/
theorem enumeration_failopen_witness :
    epNoState ∈ enumeratedDevices w7 ∧ epNoFlow ∉ enumeratedDevices w7 := by
  have h := enumeration_failopen w7 (by rfl)
  exact ⟨(h.1 epNoState (by decide) (by decide) (by decide) (by decide) (by decide)).1,
         h.2 epNoFlow (by decide)⟩

/-- **C8.** A malformed (unparsable) config file and a missing config
file both make `load_config` return exactly `DEFAULT_CONFIG`; the
embedded function is total — every disk observation yields a `Config` —
so no exception propagates to the caller. -/
theorem load_config_defaults :
    load_config (some none) = DEFAULT_CONFIG ∧ load_config none = DEFAULT_CONFIG :=
  ⟨rfl, rfl⟩

/-- **C10.** When the enumeration loop yields nothing (no active capture
device found, or the enumeration itself failed) and the OS default input
device resolves, `list_input_devices` returns exactly one entry — the
default device, named "Default microphone", with device id `None` — and,
when that device activates, `is_muted`/`set_muted` operate on this
non-empty one-endpoint set even though zero capture endpoints were
enumerated. -/
theorem fallback_default_device (w : World) (d : Endpoint)
    (h : enumeratedDevices w = []) (hd : w.defaultDev = some d) :
    list_input_devices w = [DevEntry.mk d "Default microphone" none] ∧
    (d.activateOk = true → iter_capture_volumes w = [d]) := by
  have hl : list_input_devices w = [DevEntry.mk d "Default microphone" none] := by
    unfold list_input_devices
    rw [h, hd]
    rfl
  refine ⟨hl, ?_⟩
  intro ha
  unfold iter_capture_volumes
  rw [hl]
  simp [ha]

/-- A world whose enumeration fails but whose default device resolves. -/
def wFB : World := ⟨[], false, some (epGood "idD" false), true⟩

/-- Witness for `fallback_default_device` at a concrete world with a
failing enumeration. -/
theorem fallback_default_device_witness :
    list_input_devices wFB = [DevEntry.mk (epGood "idD" false) "Default microphone" none] ∧
    iter_capture_volumes wFB = [epGood "idD" false] :=
  ⟨(fallback_default_device wFB (epGood "idD" false) (by decide) (by decide)).1,
   (fallback_default_device wFB (epGood "idD" false) (by decide) (by decide)).2 (by decide)⟩

end PyMicMute
